import Mathlib

/-!
Verification of `art/attacks/evasion/feature_adversaries.py` (Feature
Adversaries evasion attack).

Samples and activation vectors are embedded as flat lists of rationals
(`List ℚ`); numpy arrays of higher rank enter the attack only through
`flatten`/`reshape`, which we model explicitly.  The classifier and the
bounded optimizer (`scipy.optimize.minimize`, method L-BFGS-B) are external
collaborators and are embedded as abstract function records.
-/

namespace FeatureAdversaries

/-- A Python numeric value as far as the attack's validation can observe it:
`isinstance(v, int)` distinguishes `int` from other numbers. -/
inductive PyNum where
  | int (n : ℤ)
  | float (q : ℚ)
deriving DecidableEq

/-- Test `isinstance(v, int)` for a `PyNum`. -/
def PyNum.isInt : PyNum → Bool
  | .int _ => true
  | .float _ => false

/-- The exceptions the module can raise.  The three `ValueError`s are the
three validation failures of `set_params`; `classifierError` is the
`ClassifierError` of `__init__`; `attributeError` is the `AttributeError`
raised by `y.reshape(...)` when `y` is `None`. -/
inductive PyError where
  | valueErrorDelta
  | valueErrorLayer
  | valueErrorBatch
  | classifierError
  | attributeError
deriving DecidableEq

/-- Whether an exception is one of the parameter-validation `ValueError`s. -/
def PyError.isValueError : PyError → Bool
  | .valueErrorDelta => true
  | .valueErrorLayer => true
  | .valueErrorBatch => true
  | _ => false

/-- Value of `self.norm`: either `np.inf` or a finite number. -/
inductive NormVal where
  | inf
  | num (q : ℚ)
deriving DecidableEq

/-- The classifier collaborator: its declared per-sample `input_shape`,
whether it is an instance of `ClassifierGradients`, and its
`get_activations(x, layer, batch_size)` capability, taking a batch of
samples and returning a flat activation vector. -/
structure Classifier where
  input_shape : List ℕ
  isGradients : Bool
  get_activations : List (List ℚ) → PyNum → ℚ → List ℚ

/-- The attack object's attribute state: the stored classifier and the
parameters `delta`, `layer`, `batch_size`, plus `self.norm`. -/
structure AttackState where
  classifier : Classifier
  delta : ℚ
  layer : PyNum
  batch_size : ℚ
  norm : NormVal

/-- The result object returned by the external optimizer (`res`); the
attack only reads `res.x` and logs the result object. -/
structure OptResult where
  x : List ℚ
deriving DecidableEq

/-- The bounded-optimizer collaborator (`scipy.optimize.minimize` with
method L-BFGS-B).  `run f x0 lb ub` is the result of minimizing objective
`f` from start `x0` under elementwise bounds `[lb, ub]`; `queries f x0 lb ub`
lists the points at which the optimizer evaluates the objective during the
run (each such evaluation is one classifier call inside `func`). -/
structure Optimizer where
  run : (List ℚ → ℚ) → List ℚ → List ℚ → List ℚ → OptResult
  queries : (List ℚ → ℚ) → List ℚ → List ℚ → List ℚ → List (List ℚ)

/-- Element `i` of a flat array, with an irrelevant default. -/
def nth (v : List ℚ) (i : ℕ) : ℚ := v.getD i 0

/-- Elementwise `numpy` subtraction of equally-shaped flat arrays. -/
def sub (a b : List ℚ) : List ℚ := List.zipWith (fun p q => p - q) a b

/-- Embedding of `scipy.linalg.norm(v, ord=2) ** 2`: the squared Euclidean norm, i.e. the
sum of the squares of the entries.  (The source takes a real square root and
then squares it; `normL2Sq_cast_eq_sqrt_sq` below proves that composition
equals this sum of squares.) -/
def normL2Sq (v : List ℚ) : ℚ := (v.map (fun a => a * a)).sum

/-- Embedding of `x.reshape(-1, *input_shape)`: regroup a flat array into a batch of rows
of `input_shape.prod` elements each. -/
def reshapeToInput (c : Classifier) (v : List ℚ) : List (List ℚ) :=
  (List.range (v.length / c.input_shape.prod)).map
    (fun r => ((v.drop (r * c.input_shape.prod)).take c.input_shape.prod))

/-- Lines 91–92: `lb = x.flatten() - self.delta; lb[lb < 0.0] = 0.0`
(`x` is already flat in this embedding, so `flatten` is the identity). -/
def lowerBounds (x : List ℚ) (delta : ℚ) : List ℚ :=
  (x.map (fun a => a - delta)).map (fun a => if a < 0 then 0 else a)

/-- Lines 94–95: `ub = x.flatten() + self.delta; ub[ub > 1.0] = 1.0`. -/
def upperBounds (x : List ℚ) (delta : ℚ) : List ℚ :=
  (x.map (fun a => a + delta)).map (fun a => if 1 < a then 1 else a)

/-- One recorded `get_activations` invocation: its batch argument, the
`layer` argument and the `batch_size` argument. -/
abbrev ClsCall := List (List ℚ) × PyNum × ℚ

/-- Everything `generate` computes on the successful path, instrumented:
the returned array `x_adv`, the bounds handed to the optimizer, the
objective closure `func`, the precomputed guide representation, the
optimizer's evaluation points, the induced sequence of classifier calls,
the optimizer result object, and the log records emitted. -/
structure GenerateOutput where
  x_adv : List ℚ
  bound_lb : List ℚ
  bound_ub : List ℚ
  objective : List ℚ → ℚ
  guide_repr : List ℚ
  queries : List (List ℚ)
  trace : List ClsCall
  res : OptResult
  log : List OptResult

/-- Lines 91–119 of `generate` on the successful path (guide `y` present),
instrumented.  The guide representation is computed once, before the
optimizer runs; `func` closes over it.  The activation vectors are already
flat in this embedding, so the two `.flatten()` calls in `func` are the
identity.  `x_0 = x.copy()` has the same value as `x` (the aliasing aspect
is treated in `generateHeap`).  The classifier-call trace is the guide call
followed by one call per objective evaluation performed by the optimizer. -/
def generateRun (s : AttackState) (opt : Optimizer) (x y : List ℚ) : GenerateOutput :=
  let lb := lowerBounds x s.delta
  let ub := upperBounds x s.delta
  let guide := s.classifier.get_activations (reshapeToInput s.classifier y) s.layer s.batch_size
  let func := fun x_i : List ℚ =>
    normL2Sq (sub (s.classifier.get_activations (reshapeToInput s.classifier x_i) s.layer s.batch_size) guide)
  let x_0 := x
  let res := opt.run func x_0 lb ub
  { x_adv := res.x
    bound_lb := lb
    bound_ub := ub
    objective := func
    guide_repr := guide
    queries := opt.queries func x_0 lb ub
    trace := (reshapeToInput s.classifier y, s.layer, s.batch_size) ::
      (opt.queries func x_0 lb ub).map (fun q => (reshapeToInput s.classifier q, s.layer, s.batch_size))
    res := res
    log := [res] }

/-- Embedding of `generate(self, x, y=None)`: with `y = None` the expression
`y.reshape(-1, *self.classifier.input_shape)` on line 100 raises
`AttributeError` (`None` has no `reshape`), so no sample is returned;
otherwise the optimizer's `res.x` is returned. -/
def generate (s : AttackState) (opt : Optimizer) (x : List ℚ) :
    Option (List ℚ) → Except PyError (List ℚ)
  | none => .error .attributeError
  | some y => .ok (generateRun s opt x y).x_adv

/-- Modelled from the spec: the base class `Attack.set_params` (repository
code not under `src/`).  Per §4.1 it "accepts a mapping of named parameters"
and stores the three fields as attributes ("saving them as attributes", per
the subclass docstring); the subclass validation in `src/` then reads those
stored attributes (`self.delta`, `self.layer`, `self.batch_size`). -/
def base_set_params (s : AttackState) (delta : ℚ) (layer : PyNum) (batch_size : ℚ) : AttackState :=
  { s with delta := delta, layer := layer, batch_size := batch_size }

/-- Lines 121–142: `FeatureAdversaries.set_params`.  It first calls the base
class `set_params` (which stores the attributes) and then validates the
stored attributes, raising `ValueError` on the first failed check.  The
returned pair is the attack object's attribute state after the call and the
exception raised, if any: in Python, a raising call still leaves the
attributes it already assigned. -/
def set_params (s : AttackState) (delta : ℚ) (layer : PyNum) (batch_size : ℚ) :
    AttackState × Option PyError :=
  let s1 := base_set_params s delta layer batch_size
  if s1.delta ≤ 0 then (s1, some .valueErrorDelta)
  else if ¬ s1.layer.isInt then (s1, some .valueErrorLayer)
  else if s1.batch_size ≤ 0 then (s1, some .valueErrorBatch)
  else (s1, none)

/-- Lines 47–75: `FeatureAdversaries.__init__`.  The base `__init__` (not
under `src/`) stores the classifier; then the `isinstance(classifier,
ClassifierGradients)` check raises `ClassifierError` for an incapable
classifier; then `set_params` stores and validates the parameters; finally
`self.norm = np.inf` is set.  A raised exception aborts construction: no
attack object is produced. -/
def init (c : Classifier) (delta : ℚ) (layer : PyNum) (batch_size : ℚ) :
    Except PyError AttackState :=
  let s0 : AttackState :=
    { classifier := c, delta := 0, layer := .int 0, batch_size := 0, norm := .num 0 }
  if ¬ c.isGradients then .error .classifierError
  else
    match set_params s0 delta layer batch_size with
    | (_, some e) => .error e
    | (s1, none) => .ok { s1 with norm := .inf }

/-- The configuration invariant the validation enforces: `delta > 0`, the
layer index is an `int`, and `batch_size > 0`. -/
def ValidConfig (s : AttackState) : Prop :=
  0 < s.delta ∧ s.layer.isInt = true ∧ 0 < s.batch_size

instance (s : AttackState) : Decidable (ValidConfig s) := by
  unfold ValidConfig; infer_instance

/-- A parameter triple the validation accepts. -/
def ValidParams (delta : ℚ) (layer : PyNum) (batch_size : ℚ) : Prop :=
  0 < delta ∧ layer.isInt = true ∧ 0 < batch_size

instance (d : ℚ) (l : PyNum) (b : ℚ) : Decidable (ValidParams d l b) := by
  unfold ValidParams; infer_instance

/-- The optimizer contract assumed by the box-constraint claim: the result
has the start point's length and, wherever the given bounds are pointwise
feasible, the result lies within them. -/
def Optimizer.RespectsBounds (opt : Optimizer) : Prop :=
  ∀ f x0 lb ub,
    (opt.run f x0 lb ub).x.length = x0.length ∧
    ∀ i, i < x0.length → i < lb.length → i < ub.length → nth lb i ≤ nth ub i →
      nth lb i ≤ nth (opt.run f x0 lb ub).x i ∧ nth (opt.run f x0 lb ub).x i ≤ nth ub i

/-- Modelled from the spec, for comparison with the objective built by the
source (§4.2 step 3): "given a candidate flattened source-shaped vector,
reshape it to the classifier's input shape, extract its activation vector at
the same layer/batch_size, and return the squared Euclidean (L2) norm of
(candidate activation − guide activation)", the guide activation being that
of `y` (§4.2 step 2). -/
def specObjective (s : AttackState) (y v : List ℚ) : ℚ :=
  normL2Sq (sub
    (s.classifier.get_activations (reshapeToInput s.classifier v) s.layer s.batch_size)
    (s.classifier.get_activations (reshapeToInput s.classifier y) s.layer s.batch_size))

/-! ### A heap model for the aliasing claims

Arrays live in a store; references are indices into it.  Every numpy
operation used by `generate` allocates a fresh array, except the two
in-place masked assignments, which write through the (fresh, local)
references `lb` and `ub`. -/

/-- A store of allocated arrays; a reference is an index into it. -/
abbrev Store := List (List ℚ)

/-- Allocate a fresh array holding `v`. -/
def alloc (st : Store) (v : List ℚ) : Store × ℕ := (st ++ [v], st.length)

/-- Read the array a reference designates. -/
def readA (st : Store) (r : ℕ) : List ℚ := st.getD r []

/-- Overwrite the array a reference designates (in-place assignment). -/
def writeA (st : Store) (r : ℕ) (v : List ℚ) : Store := st.set r v

/-- The observable outcome of a `generate` call in the heap model. -/
structure HeapOut where
  store : Store
  result : ℕ
  log : List OptResult
  post : AttackState
  x0ref : ℕ
  x0val : List ℚ

/-- Lines 77–119 in the heap model.  `ix`, `iy` are the caller's references
to `x` and `y`.  `x.flatten() - delta` allocates a fresh array; the masked
assignments write in place through the fresh local references; `x_0 =
x.copy()` allocates a fresh array with `x`'s contents, and that reference is
what the optimizer is started from; `res.x` is a fresh array.  `generate`
assigns no attribute of `self`, so the attribute state is returned
unchanged; the single log record is the optimizer result. -/
def generateHeap (s : AttackState) (opt : Optimizer) (st : Store) (ix iy : ℕ) : HeapOut :=
  let x := readA st ix
  let p1 := alloc st (x.map (fun a => a - s.delta))
  let st2 := writeA p1.1 p1.2 ((readA p1.1 p1.2).map (fun a => if a < 0 then 0 else a))
  let p2 := alloc st2 (x.map (fun a => a + s.delta))
  let st3 := writeA p2.1 p2.2 ((readA p2.1 p2.2).map (fun a => if 1 < a then 1 else a))
  let y := readA st3 iy
  let p3 := alloc st3 (s.classifier.get_activations (reshapeToInput s.classifier y) s.layer s.batch_size)
  let guide := readA p3.1 p3.2
  let func := fun v : List ℚ =>
    normL2Sq (sub (s.classifier.get_activations (reshapeToInput s.classifier v) s.layer s.batch_size) guide)
  let p4 := alloc p3.1 (readA p3.1 ix)
  let res := opt.run func (readA p4.1 p4.2) (readA p4.1 p1.2) (readA p4.1 p2.2)
  let p5 := alloc p4.1 res.x
  { store := p5.1
    result := p5.2
    log := [res]
    post := s
    x0ref := p4.2
    x0val := readA p4.1 p4.2 }

/-! ### Concrete instances used as witnesses -/

/-- A gradient-capable classifier whose activation at any layer is the
flattened input itself (an identity representation layer). -/
def idClassifier : Classifier :=
  { input_shape := [1]
    isGradients := true
    get_activations := fun b _ _ => b.foldr (fun r acc => r ++ acc) [] }

/-- A classifier lacking the `ClassifierGradients` capability. -/
def plainClassifier : Classifier :=
  { idClassifier with isGradients := false }

/-- A validly configured attack object. -/
def validState0 : AttackState :=
  { classifier := idClassifier, delta := 1, layer := .int 0, batch_size := 32, norm := .inf }

/-- A bounds-respecting optimizer: it clamps the start point into the box
and reports one objective evaluation, at the start point. -/
def clampOpt : Optimizer :=
  { run := fun _ x0 lb ub =>
      { x := (List.range x0.length).map (fun i => max (nth lb i) (min (nth ub i) (nth x0 i))) }
    queries := fun _ x0 _ _ => [x0] }

/-! ### Helper lemmas -/

theorem nth_map (f : ℚ → ℚ) :
    ∀ (l : List ℚ) (i : ℕ), i < l.length → nth (l.map f) i = f (nth l i) := by
  intro l
  induction l with
  | nil => intro i h; simp at h
  | cons a l ih =>
    intro i h
    cases i with
    | zero => simp [nth]
    | succ j =>
      simp only [List.map_cons, nth, List.getD, List.getElem?_cons_succ]
      exact ih j (by simpa using Nat.lt_of_succ_lt_succ h)

theorem nth_mem : ∀ (l : List ℚ) (i : ℕ), i < l.length → nth l i ∈ l := by
  intro l
  induction l with
  | nil => intro i h; simp at h
  | cons a l ih =>
    intro i h
    cases i with
    | zero => simp [nth]
    | succ j =>
      simp only [nth, List.getD, List.getElem?_cons_succ]
      exact List.mem_cons_of_mem a (ih j (by simpa using Nat.lt_of_succ_lt_succ h))

theorem clamp0_eq_max (a : ℚ) : (if a < 0 then 0 else a) = max 0 a := by
  rcases le_or_lt 0 a with h | h
  · rw [if_neg (not_lt.2 h), max_eq_right h]
  · rw [if_pos h, max_eq_left h.le]

theorem clamp1_eq_min (a : ℚ) : (if 1 < a then 1 else a) = min 1 a := by
  rcases le_or_lt a 1 with h | h
  · rw [if_neg (not_lt.2 h), min_eq_right h]
  · rw [if_pos h, min_eq_left h.le]

theorem length_lowerBounds (x : List ℚ) (d : ℚ) : (lowerBounds x d).length = x.length := by
  simp [lowerBounds]

theorem length_upperBounds (x : List ℚ) (d : ℚ) : (upperBounds x d).length = x.length := by
  simp [upperBounds]

theorem nth_lowerBounds (x : List ℚ) (d : ℚ) (i : ℕ) (h : i < x.length) :
    nth (lowerBounds x d) i = max 0 (nth x i - d) := by
  unfold lowerBounds
  rw [nth_map _ _ i (by simpa using h), nth_map _ _ i h, clamp0_eq_max]

theorem nth_upperBounds (x : List ℚ) (d : ℚ) (i : ℕ) (h : i < x.length) :
    nth (upperBounds x d) i = min 1 (nth x i + d) := by
  unfold upperBounds
  rw [nth_map _ _ i (by simpa using h), nth_map _ _ i h, clamp1_eq_min]

theorem nth_range_map (g : ℕ → ℚ) (n i : ℕ) (h : i < n) :
    nth ((List.range n).map g) i = g i := by
  simp [nth, List.getD_eq_getElem?_getD, List.getElem?_map, List.getElem?_range, h]

/-- The concrete clamping optimizer satisfies the bounds contract. -/
theorem clampOpt_respectsBounds : clampOpt.RespectsBounds := by
  intro f x0 lb ub
  constructor
  · simp [clampOpt]
  · intro i hi _ _ hfeas
    have hcl : nth (clampOpt.run f x0 lb ub).x i = max (nth lb i) (min (nth ub i) (nth x0 i)) := by
      simp only [clampOpt]
      exact nth_range_map _ _ i hi
    rw [hcl]
    exact ⟨le_max_left _ _, max_le hfeas (min_le_left _ _)⟩

/-- The squared-norm embedding agrees with the source's literal
`norm(v, ord=2) ** 2`: over the reals, the square of the Euclidean norm
(square root of the sum of squares) is the sum of squares. -/
theorem normL2Sq_cast_eq_sqrt_sq (v : List ℚ) :
    ((normL2Sq v : ℚ) : ℝ) = Real.sqrt ((v.map (fun a => ((a : ℝ)) ^ 2)).sum) ^ 2 := by
  have hnn : (0 : ℝ) ≤ (v.map (fun a => ((a : ℝ)) ^ 2)).sum := by
    apply List.sum_nonneg
    intro a ha
    rcases List.mem_map.1 ha with ⟨b, _, rfl⟩
    exact sq_nonneg _
  rw [Real.sq_sqrt hnn]
  induction v with
  | nil => simp [normL2Sq]
  | cons a t ih =>
    have hs : normL2Sq (a :: t) = a * a + normL2Sq t := by simp [normL2Sq]
    have ht : ((normL2Sq t : ℚ) : ℝ) = (t.map (fun b => ((b : ℝ)) ^ 2)).sum := by
      apply ih
      apply List.sum_nonneg
      intro b hb
      rcases List.mem_map.1 hb with ⟨c, _, rfl⟩
      exact sq_nonneg _
    rw [hs]
    push_cast
    rw [ht]
    simp [sq]

theorem readA_append_lt (st : Store) (l : List (List ℚ)) (i : ℕ) (h : i < st.length) :
    readA (st ++ l) i = readA st i := by
  simp [readA, List.getD_eq_getElem?_getD, List.getElem?_append, h]

theorem readA_append_zero (st : Store) (v : List ℚ) (l : List (List ℚ)) :
    readA (st ++ v :: l) st.length = v := by
  simp [readA, List.getD_eq_getElem?_getD, List.getElem?_append_right (Nat.le_refl st.length)]

theorem set_append_zero (st : Store) (v : List ℚ) (l : List (List ℚ)) (w : List ℚ) :
    (st ++ v :: l).set st.length w = st ++ w :: l := by
  induction st with
  | nil => rfl
  | cons a t ih =>
    show a :: (t ++ v :: l).set t.length w = a :: (t ++ w :: l)
    rw [ih]

theorem readA_append3_lt (st : Store) (a b c : List ℚ) (i : ℕ) (h : i < st.length) :
    readA (((st ++ [a]) ++ [b]) ++ [c]) i = readA st i := by
  have h2 : i < ((st ++ [a]) ++ [b]).length := by
    simp only [List.length_append, List.length_cons, List.length_nil]; omega
  have h1 : i < (st ++ [a]).length := by
    simp only [List.length_append, List.length_cons, List.length_nil]; omega
  rw [readA_append_lt _ _ _ h2, readA_append_lt _ _ _ h1, readA_append_lt _ _ _ h]

theorem readA_append5_lt (st : Store) (a b c d e : List ℚ) (i : ℕ) (h : i < st.length) :
    readA (((((st ++ [a]) ++ [b]) ++ [c]) ++ [d]) ++ [e]) i = readA st i := by
  have h4 : i < ((((st ++ [a]) ++ [b]) ++ [c]) ++ [d]).length := by
    simp only [List.length_append, List.length_cons, List.length_nil]; omega
  have h3 : i < (((st ++ [a]) ++ [b]) ++ [c]).length := by
    simp only [List.length_append, List.length_cons, List.length_nil]; omega
  rw [readA_append_lt _ _ _ h4, readA_append_lt _ _ _ h3]
  exact readA_append3_lt st a b c i h

/-- The state component of `set_params` is the stored parameters, whatever
the validation outcome. -/
theorem set_params_fst (s : AttackState) (d : ℚ) (l : PyNum) (b : ℚ) :
    (set_params s d l b).1 = base_set_params s d l b := by
  simp only [set_params]
  split_ifs <;> rfl

/-! ### Claim theorems -/

/-- Claim C2: in every call to `generate`, the box bounds are computed
element-wise on the flattened source as `lower_i = max(0, x_i − delta)` and
`upper_i = min(1, x_i + delta)`, and exactly these bounds are handed to the
optimizer, whose result is what `generate` returns. -/
theorem generate_bounds_formula (s : AttackState) (opt : Optimizer) (x y : List ℚ) (i : ℕ)
    (hi : i < x.length) :
    nth (generateRun s opt x y).bound_lb i = max 0 (nth x i - s.delta) ∧
    nth (generateRun s opt x y).bound_ub i = min 1 (nth x i + s.delta) ∧
    (generateRun s opt x y).x_adv =
      (opt.run (generateRun s opt x y).objective x
        (generateRun s opt x y).bound_lb (generateRun s opt x y).bound_ub).x ∧
    generate s opt x (some y) = Except.ok (generateRun s opt x y).x_adv := by
  refine ⟨?_, ?_, rfl, rfl⟩
  · exact nth_lowerBounds x s.delta i hi
  · exact nth_upperBounds x s.delta i hi

/-- Witness for C2 at `x = [1/2]`, `delta = 1`, coordinate `0`. -/
theorem generate_bounds_formula_witness :
    nth (generateRun validState0 clampOpt [(1 : ℚ)/2] [(9 : ℚ)/10]).bound_lb 0 =
      max 0 (nth [(1 : ℚ)/2] 0 - validState0.delta) ∧
    nth (generateRun validState0 clampOpt [(1 : ℚ)/2] [(9 : ℚ)/10]).bound_ub 0 =
      min 1 (nth [(1 : ℚ)/2] 0 + validState0.delta) := by
  have h := generate_bounds_formula validState0 clampOpt [(1 : ℚ)/2] [(9 : ℚ)/10] 0 (by decide)
  exact ⟨h.1, h.2.1⟩

/-- Claim C5: parameter triples with `delta ≤ 0`, a non-`int` layer, or
`batch_size ≤ 0` make both construction and `set_params` raise a
`ValueError`; valid triples make both succeed and store exactly those three
values. -/
theorem set_params_init_validation (c : Classifier) (s : AttackState) (d : ℚ) (l : PyNum)
    (b : ℚ) (hc : c.isGradients = true) :
    (¬ ValidParams d l b →
      (∃ e, (set_params s d l b).2 = some e ∧ e.isValueError = true) ∧
      (∃ e, init c d l b = Except.error e ∧ e.isValueError = true)) ∧
    (ValidParams d l b →
      (set_params s d l b).2 = none ∧
      (set_params s d l b).1.delta = d ∧
      (set_params s d l b).1.layer = l ∧
      (set_params s d l b).1.batch_size = b ∧
      ∃ s2, init c d l b = Except.ok s2 ∧ s2.delta = d ∧ s2.layer = l ∧ s2.batch_size = b) := by
  constructor
  · intro hnv
    by_cases hd : d ≤ 0
    · refine ⟨⟨.valueErrorDelta, ?_, rfl⟩, ⟨.valueErrorDelta, ?_, rfl⟩⟩
      · simp [set_params, base_set_params, hd]
      · simp [init, hc, set_params, base_set_params, hd]
    · by_cases hl : l.isInt
      · by_cases hb : b ≤ 0
        · refine ⟨⟨.valueErrorBatch, ?_, rfl⟩, ⟨.valueErrorBatch, ?_, rfl⟩⟩
          · simp [set_params, base_set_params, hd, hl, hb]
          · simp [init, hc, set_params, base_set_params, hd, hl, hb]
        · exact absurd ⟨lt_of_not_le hd, hl, lt_of_not_le hb⟩ hnv
      · refine ⟨⟨.valueErrorLayer, ?_, rfl⟩, ⟨.valueErrorLayer, ?_, rfl⟩⟩
        · simp [set_params, base_set_params, hd, hl]
        · simp [init, hc, set_params, base_set_params, hd, hl]
  · rintro ⟨hd, hl, hb⟩
    have hd' : ¬ d ≤ 0 := not_le.2 hd
    have hb' : ¬ b ≤ 0 := not_le.2 hb
    refine ⟨?_, ?_, ?_, ?_, ?_⟩
    · simp [set_params, base_set_params, hd', hl, hb']
    · rw [set_params_fst]; rfl
    · rw [set_params_fst]; rfl
    · rw [set_params_fst]; rfl
    · refine ⟨{ classifier := c, delta := d, layer := l, batch_size := b, norm := .inf },
        ?_, rfl, rfl, rfl⟩
      simp [init, hc, set_params, base_set_params, hd', hl, hb']

/-- Witness for C5: a valid triple is accepted and stored; an invalid
`delta` is rejected by `set_params` and by the constructor. -/
theorem set_params_init_validation_witness :
    (set_params validState0 1 (PyNum.int 0) 32).2 = none ∧
    (set_params validState0 (-1) (PyNum.int 0) 32).2 =
      some PyError.valueErrorDelta := by
  constructor
  · exact ((set_params_init_validation idClassifier validState0 1 (PyNum.int 0) 32 rfl).2
      (by refine ⟨by norm_num, rfl, by norm_num⟩)).1
  · have h := ((set_params_init_validation idClassifier validState0 (-1) (PyNum.int 0) 32
      rfl).1 (by intro h; exact absurd h.1 (by norm_num)))
    obtain ⟨e, he, _⟩ := h.1
    rw [he]
    rcases e with _ | _ | _ | _ | _ <;> first | rfl | exact absurd he (by decide)

/-- Claim C6 (code behaviour at the failing input): `set_params` stores the
supplied parameters *before* validating them, so a raising call on a validly
configured object leaves the object holding the invalid configuration —
here `delta = -1` is stored although the call raised. -/
theorem set_params_stores_before_raising :
    (set_params validState0 (-1) (PyNum.int 0) 32).2 = some PyError.valueErrorDelta ∧
    (set_params validState0 (-1) (PyNum.int 0) 32).1.delta = -1 ∧
    ¬ ValidConfig (set_params validState0 (-1) (PyNum.int 0) 32).1 := by
  refine ⟨rfl, by rw [set_params_fst]; rfl, ?_⟩
  rw [set_params_fst]
  intro h
  exact absurd h.1 (by norm_num [base_set_params, validState0])

/-- Claim C7: a classifier that is not a `ClassifierGradients` makes the
constructor raise `ClassifierError`; no attack object is produced. -/
theorem init_requires_gradients (c : Classifier) (d : ℚ) (l : PyNum) (b : ℚ)
    (hc : c.isGradients = false) :
    init c d l b = Except.error PyError.classifierError := by
  simp [init, hc]

/-- Witness for C7 at a concrete gradient-free classifier. -/
theorem init_requires_gradients_witness :
    init plainClassifier 1 (PyNum.int 0) 32 = Except.error PyError.classifierError :=
  init_requires_gradients plainClassifier 1 (PyNum.int 0) 32 rfl

/-- Claim C8: `generate` with the guide samples left at their default
(`y = None`) raises `AttributeError` on `y.reshape(...)` and never returns
an adversarial sample. -/
theorem generate_requires_guide (s : AttackState) (opt : Optimizer) (x : List ℚ) :
    generate s opt x none = Except.error PyError.attributeError := rfl

/-- Claim C9: `set_params` is idempotent on valid parameter dictionaries:
a second call with the same values leaves the identical stored
configuration (and outcome). -/
theorem set_params_idempotent (s : AttackState) (d : ℚ) (l : PyNum) (b : ℚ)
    (_h : ValidParams d l b) :
    set_params (set_params s d l b).1 d l b = set_params s d l b := by
  rw [set_params_fst]
  rfl

/-- Claim C1: for a valid configuration and a source `x` with entries in
`[0,1]`, if the bounded optimizer returns a point satisfying the bounds it
was given, then every coordinate of the flat array returned by `generate`
lies in `[max(0, x_i − delta), min(1, x_i + delta)]`. -/
theorem generate_box_constraint (s : AttackState) (opt : Optimizer) (x y adv : List ℚ)
    (hval : ValidConfig s) (hx : ∀ a ∈ x, 0 ≤ a ∧ a ≤ 1)
    (hopt : opt.RespectsBounds)
    (hgen : generate s opt x (some y) = Except.ok adv) :
    ∀ i, i < adv.length →
      max 0 (nth x i - s.delta) ≤ nth adv i ∧ nth adv i ≤ min 1 (nth x i + s.delta) := by
  have hadv : adv = (generateRun s opt x y).x_adv := by
    simpa [generate] using hgen.symm
  subst hadv
  have hx_adv : (generateRun s opt x y).x_adv =
      (opt.run (generateRun s opt x y).objective x
        (lowerBounds x s.delta) (upperBounds x s.delta)).x := rfl
  intro i hi
  rw [hx_adv] at hi ⊢
  obtain ⟨hlen, hpt⟩ :=
    hopt (generateRun s opt x y).objective x (lowerBounds x s.delta) (upperBounds x s.delta)
  have hix : i < x.length := by rw [hlen] at hi; exact hi
  have hxi := hx (nth x i) (nth_mem x i hix)
  have hdelta : 0 < s.delta := hval.1
  have hfeas : nth (lowerBounds x s.delta) i ≤ nth (upperBounds x s.delta) i := by
    rw [nth_lowerBounds x s.delta i hix, nth_upperBounds x s.delta i hix]
    have h1 : max 0 (nth x i - s.delta) ≤ nth x i := max_le hxi.1 (by linarith)
    have h2 : nth x i ≤ min 1 (nth x i + s.delta) := le_min hxi.2 (by linarith)
    linarith
  have hbnd := hpt i hix (by rw [length_lowerBounds]; exact hix)
    (by rw [length_upperBounds]; exact hix) hfeas
  rw [nth_lowerBounds x s.delta i hix, nth_upperBounds x s.delta i hix] at hbnd
  exact hbnd

/-- Witness for C1 with the identity-representation classifier, `delta = 1`,
the clamping optimizer, `x = [0]`, guide `y = [1]`: the returned array is
`[0]` and its coordinate 0 lies inside the box. -/
theorem generate_box_constraint_witness :
    max 0 (nth [(0 : ℚ)] 0 - validState0.delta) ≤ nth [(0 : ℚ)] 0 ∧
    nth [(0 : ℚ)] 0 ≤ min 1 (nth [(0 : ℚ)] 0 + validState0.delta) := by
  have hlb : nth (lowerBounds [(0 : ℚ)] validState0.delta) 0 = 0 := by
    rw [nth_lowerBounds _ _ 0 (by decide)]
    norm_num [nth, validState0]
  have hub : nth (upperBounds [(0 : ℚ)] validState0.delta) 0 = 1 := by
    rw [nth_upperBounds _ _ 0 (by decide)]
    norm_num [nth, validState0]
  have hgen : generate validState0 clampOpt [(0 : ℚ)] (some [(1 : ℚ)]) =
      Except.ok [(0 : ℚ)] := by
    have hx_adv : (generateRun validState0 clampOpt [(0 : ℚ)] [(1 : ℚ)]).x_adv =
        [(0 : ℚ)] := by
      show (List.range 1).map (fun i =>
          max (nth (lowerBounds [(0 : ℚ)] validState0.delta) i)
            (min (nth (upperBounds [(0 : ℚ)] validState0.delta) i) (nth [(0 : ℚ)] i)))
        = [(0 : ℚ)]
      simp only [List.range_succ, List.range_zero, List.nil_append,
        List.map_cons, List.map_nil]
      rw [hlb, hub]
      norm_num [nth]
    calc generate validState0 clampOpt [(0 : ℚ)] (some [(1 : ℚ)])
        = Except.ok (generateRun validState0 clampOpt [(0 : ℚ)] [(1 : ℚ)]).x_adv := rfl
      _ = Except.ok [(0 : ℚ)] := by rw [hx_adv]
  exact generate_box_constraint validState0 clampOpt [(0 : ℚ)] [(1 : ℚ)] [(0 : ℚ)]
    (by decide) (by decide) clampOpt_respectsBounds hgen 0 (by decide)

/-- Claim C3: the objective built inside `generate` maps a candidate `v` to
the squared Euclidean norm of the difference between the classifier's
activation vector for `v` (reshaped to the input shape, at the configured
layer and batch size) and the guide's activation vector; over the reals it
is literally `norm(difference, ord=2) ** 2`. -/
theorem generate_objective_formula (s : AttackState) (opt : Optimizer) (x y v : List ℚ) :
    (generateRun s opt x y).objective v = specObjective s y v ∧
    (((generateRun s opt x y).objective v : ℚ) : ℝ) =
      Real.sqrt (((sub
          (s.classifier.get_activations (reshapeToInput s.classifier v) s.layer s.batch_size)
          (s.classifier.get_activations (reshapeToInput s.classifier y) s.layer s.batch_size)).map
        (fun a => ((a : ℝ)) ^ 2)).sum) ^ 2 := by
  refine ⟨rfl, ?_⟩
  exact normL2Sq_cast_eq_sqrt_sq _

/-- Claim C4: the classifier-call sequence of a `generate` call starts with
exactly one activation extraction on the reshaped guide `y` (before the
optimizer runs), every later call is on an optimizer candidate, the stored
guide representation is that first call's result, and every objective
evaluation compares against that fixed vector; in particular, when no
optimizer candidate reshapes to the guide batch, the guide batch is the
argument of exactly one call in the whole trace. -/
theorem generate_guide_called_once (s : AttackState) (opt : Optimizer) (x y : List ℚ)
    (hq : ∀ q ∈ (generateRun s opt x y).queries,
      reshapeToInput s.classifier q ≠ reshapeToInput s.classifier y) :
    (generateRun s opt x y).trace.head? =
      some (reshapeToInput s.classifier y, s.layer, s.batch_size) ∧
    (generateRun s opt x y).trace =
      (reshapeToInput s.classifier y, s.layer, s.batch_size) ::
        (generateRun s opt x y).queries.map
          (fun q => (reshapeToInput s.classifier q, s.layer, s.batch_size)) ∧
    (generateRun s opt x y).guide_repr =
      s.classifier.get_activations (reshapeToInput s.classifier y) s.layer s.batch_size ∧
    (∀ v, (generateRun s opt x y).objective v =
      normL2Sq (sub
        (s.classifier.get_activations (reshapeToInput s.classifier v) s.layer s.batch_size)
        (generateRun s opt x y).guide_repr)) ∧
    ((generateRun s opt x y).trace.filter
      (fun cl => decide (cl.1 = reshapeToInput s.classifier y))).length = 1 := by
  refine ⟨rfl, rfl, rfl, fun v => rfl, ?_⟩
  have htr : (generateRun s opt x y).trace =
      (reshapeToInput s.classifier y, s.layer, s.batch_size) ::
        (generateRun s opt x y).queries.map
          (fun q => (reshapeToInput s.classifier q, s.layer, s.batch_size)) := rfl
  rw [htr]
  rw [List.filter_cons]
  rw [if_pos (by simp)]
  have hnil : ((generateRun s opt x y).queries.map
      (fun q => ((reshapeToInput s.classifier q, s.layer, s.batch_size) : ClsCall))).filter
      (fun cl => decide (cl.1 = reshapeToInput s.classifier y)) = [] := by
    rw [List.filter_eq_nil_iff]
    intro cl hcl
    rcases List.mem_map.1 hcl with ⟨q, hqmem, rfl⟩
    simpa using hq q hqmem
  rw [hnil]
  rfl

/-- Witness for C4: with the clamping optimizer (one objective evaluation,
at the start point `[0]`) and guide `[1]`, the trace contains exactly one
call on the guide batch. -/
theorem generate_guide_called_once_witness :
    ((generateRun validState0 clampOpt [(0 : ℚ)] [(1 : ℚ)]).trace.filter
      (fun cl => decide (cl.1 = reshapeToInput validState0.classifier [(1 : ℚ)]))).length
      = 1 := by
  exact (generate_guide_called_once validState0 clampOpt [(0 : ℚ)] [(1 : ℚ)]
    (by decide)).2.2.2.2

/-- Witness for C9 at a concrete valid dictionary. -/
theorem set_params_idempotent_witness :
    ValidParams 1 (PyNum.int 0) 32 ∧
    set_params (set_params validState0 1 (PyNum.int 0) 32).1 1 (PyNum.int 0) 32 =
      set_params validState0 1 (PyNum.int 0) 32 :=
  ⟨by refine ⟨by norm_num, rfl, by norm_num⟩,
    set_params_idempotent validState0 1 (PyNum.int 0) 32
      (by refine ⟨by norm_num, rfl, by norm_num⟩)⟩

/-- Claim C10: a `generate` call leaves the attack's attribute state
unchanged, does not touch the caller's arrays `x` and `y` in the store,
starts the optimizer from a freshly allocated copy of `x` (a reference
distinct from both inputs but holding `x`'s contents), and emits exactly
one log record. -/
theorem generate_frame (s : AttackState) (opt : Optimizer) (st : Store) (ix iy : ℕ)
    (hix : ix < st.length) (hiy : iy < st.length) :
    readA (generateHeap s opt st ix iy).store ix = readA st ix ∧
    readA (generateHeap s opt st ix iy).store iy = readA st iy ∧
    (generateHeap s opt st ix iy).post = s ∧
    (generateHeap s opt st ix iy).x0ref ≠ ix ∧
    (generateHeap s opt st ix iy).x0ref ≠ iy ∧
    (generateHeap s opt st ix iy).x0val = readA st ix ∧
    (∃ r, (generateHeap s opt st ix iy).log = [r]) := by
  refine ⟨?_, ?_, rfl, ?_, ?_, ?_, ⟨_, rfl⟩⟩
  · simp only [generateHeap, alloc, writeA, readA_append_zero, set_append_zero]
    exact readA_append5_lt _ _ _ _ _ _ ix hix
  · simp only [generateHeap, alloc, writeA, readA_append_zero, set_append_zero]
    exact readA_append5_lt _ _ _ _ _ _ iy hiy
  · simp only [generateHeap, alloc, writeA, List.length_set, List.length_append,
      List.length_cons, List.length_nil]
    omega
  · simp only [generateHeap, alloc, writeA, List.length_set, List.length_append,
      List.length_cons, List.length_nil]
    omega
  · simp only [generateHeap, alloc, writeA, readA_append_zero, set_append_zero]
    exact readA_append3_lt _ _ _ _ ix hix

/-- Witness for C10 on the two-array store `[[0], [1]]`. -/
theorem generate_frame_witness :
    readA (generateHeap validState0 clampOpt [[(0 : ℚ)], [(1 : ℚ)]] 0 1).store 0 =
      readA [[(0 : ℚ)], [(1 : ℚ)]] 0 ∧
    readA (generateHeap validState0 clampOpt [[(0 : ℚ)], [(1 : ℚ)]] 0 1).store 1 =
      readA [[(0 : ℚ)], [(1 : ℚ)]] 1 ∧
    (generateHeap validState0 clampOpt [[(0 : ℚ)], [(1 : ℚ)]] 0 1).x0ref ≠ 0 := by
  have h := generate_frame validState0 clampOpt [[(0 : ℚ)], [(1 : ℚ)]] 0 1
    (by decide) (by decide)
  exact ⟨h.1, h.2.1, h.2.2.2.1⟩

end FeatureAdversaries
